import Mathlib

/-
Verification development for the adaptive caching and status-polling engine
(src/api_manager.py and src/core.py). The Python classes are shallowly
embedded: timestamps are integers (seconds) passed explicitly to each
operation, the TTL and burst-duration configuration constants (imported by
the source from a config module that is not part of the verified sources)
are fields of an explicit Config value, and the account dictionaries parsed
by the fetch layer are records holding the string fields the verified
operations read.
-/

/-- Python str.lower over the ASCII alphabet, mapped over the characters.
Defined over the character list so concrete instances evaluate. -/
def strLower (s : String) : String := ⟨s.data.map Char.toLower⟩

/-- Python str.upper over the ASCII alphabet, mapped over the characters. -/
def strUpper (s : String) : String := ⟨s.data.map Char.toUpper⟩

/-- Python str.strip: drop leading and trailing whitespace. -/
def strTrim (s : String) : String :=
  ⟨((s.data.dropWhile Char.isWhitespace).reverse.dropWhile
      Char.isWhitespace).reverse⟩

/-- One parsed account row. The fetch layer maps every field of a row to a
string (empty string when missing), so the fields used by the verified
operations are plain strings: idAccount, Sender and Status. -/
structure AccountRecord where
  idAccount : String
  Sender : String
  Status : String
deriving DecidableEq, Repr

/-- Configuration constants imported by api_manager.py from the config
module: the three TTL levels and the burst duration. Their numeric values
live outside the verified sources, so they are kept abstract here. -/
structure Config where
  CACHE_TTL_MIN : Int
  CACHE_TTL_NORMAL : Int
  CACHE_TTL_MAX : Int
  BURST_MODE_DURATION : Int
deriving DecidableEq, Repr

/-- The mutable state of SmartCacheManager (api_manager.py, __init__). -/
structure CacheState where
  cache : Option (List AccountRecord)
  cache_timestamp : Option Int
  cache_ttl : Int
  burst_mode_active : Bool
  burst_mode_started : Option Int
  last_changes_count : Int
  consecutive_quiet_cycles : Nat
  last_successful_cache : Option (List AccountRecord)
  last_successful_timestamp : Option Int
  burst_targets : Finset String
deriving DecidableEq

/-- The state built by SmartCacheManager.__init__ : empty cache, TTL at the
NORMAL level, burst mode off, counters at zero. -/
def initState (cfg : Config) : CacheState :=
  { cache := none
    cache_timestamp := none
    cache_ttl := cfg.CACHE_TTL_NORMAL
    burst_mode_active := false
    burst_mode_started := none
    last_changes_count := 0
    consecutive_quiet_cycles := 0
    last_successful_cache := none
    last_successful_timestamp := none
    burst_targets := ∅ }

/-- SmartCacheManager.is_cache_valid: false when the snapshot or its
timestamp is missing, false while burst mode is active, otherwise true
exactly when the snapshot age is strictly below the current TTL. -/
def is_cache_valid (s : CacheState) (now : Int) : Bool :=
  match s.cache, s.cache_timestamp with
  | none, _ => false
  | _, none => false
  | some _, some ts =>
    if s.burst_mode_active then false
    else decide (now - ts < s.cache_ttl)

/-- SmartCacheManager.activate_burst_mode: when inactive, switch on and
record the start time; in both cases insert the id into the target set. -/
def activate_burst_mode (s : CacheState) (accountId : String) (now : Int) :
    CacheState :=
  let s1 :=
    if s.burst_mode_active then s
    else { s with burst_mode_active := true, burst_mode_started := some now }
  { s1 with burst_targets := insert accountId s1.burst_targets }

/-- SmartCacheManager.check_burst_mode: while active, once the elapsed time
reaches BURST_MODE_DURATION, switch off, forget the start time and clear the
target set. The none branch of the start time is unreachable through the
operations of the manager (the Python code would raise there). -/
def check_burst_mode (cfg : Config) (s : CacheState) (now : Int) : CacheState :=
  if s.burst_mode_active = false then s
  else
    match s.burst_mode_started with
    | none => s
    | some t =>
      if now - t ≥ cfg.BURST_MODE_DURATION then
        { s with burst_mode_active := false
                 burst_mode_started := none
                 burst_targets := ∅ }
      else s

/-- SmartCacheManager.adjust_ttl: five or more changes force the MIN level
and reset the quiet counter, two to four changes force the NORMAL level and
reset the quiet counter, fewer than two changes increment the quiet counter
and, once it has reached three, set the MAX level. -/
def adjust_ttl (cfg : Config) (s : CacheState) (changes_detected : Nat) :
    CacheState :=
  if changes_detected ≥ 5 then
    { s with cache_ttl := cfg.CACHE_TTL_MIN, consecutive_quiet_cycles := 0 }
  else if changes_detected ≥ 2 then
    { s with cache_ttl := cfg.CACHE_TTL_NORMAL, consecutive_quiet_cycles := 0 }
  else
    let q := s.consecutive_quiet_cycles + 1
    if q ≥ 3 then
      { s with consecutive_quiet_cycles := q, cache_ttl := cfg.CACHE_TTL_MAX }
    else
      { s with consecutive_quiet_cycles := q }

/-- SmartCacheManager.update_cache: a successful update stores the data and
the capture time in both the live slot and the last-successful slot. A
failed update restores the last successful snapshot and its timestamp, but
only when that snapshot is truthy in Python, that is, present and
nonempty. -/
def update_cache (s : CacheState) (new_data : List AccountRecord)
    (success : Bool) (now : Int) : CacheState :=
  if success then
    { s with cache := some new_data
             cache_timestamp := some now
             last_successful_cache := some new_data
             last_successful_timestamp := some now }
  else
    match s.last_successful_cache with
    | none => s
    | some l =>
      if l.isEmpty then s
      else { s with cache := some l
                    cache_timestamp := s.last_successful_timestamp }

/-- SmartCacheManager.get_account_by_id: none on a missing or empty
snapshot, otherwise the first record whose idAccount equals the query. -/
def get_account_by_id (s : CacheState) (account_id : String) :
    Option AccountRecord :=
  match s.cache with
  | none => none
  | some c =>
    if c.isEmpty then none
    else c.find? (fun a => a.idAccount == account_id)

/-- SmartCacheManager.get_account_by_email: none on a missing or empty
snapshot, otherwise the first record whose lowercased Sender equals the
lowercased and trimmed query. -/
def get_account_by_email (s : CacheState) (email : String) :
    Option AccountRecord :=
  match s.cache with
  | none => none
  | some c =>
    if c.isEmpty then none
    else
      let e := strTrim (strLower email)
      c.find? (fun a => strLower a.Sender == e)

/-- The TTL value after each step of feeding a list of change counts to
adjust_ttl. -/
def ttlTrace (cfg : Config) : CacheState → List Nat → List Int
  | _, [] => []
  | s, n :: rest =>
    let s1 := adjust_ttl cfg s n
    s1.cache_ttl :: ttlTrace cfg s1 rest

/-- States reachable from the initial state through the operations of
SmartCacheManager itself, with arbitrary clock readings and inputs. -/
inductive Reachable (cfg : Config) : CacheState → Prop
  | init : Reachable cfg (initState cfg)
  | update (s : CacheState) (d : List AccountRecord) (ok : Bool) (now : Int) :
      Reachable cfg s → Reachable cfg (update_cache s d ok now)
  | adjust (s : CacheState) (n : Nat) :
      Reachable cfg s → Reachable cfg (adjust_ttl cfg s n)
  | burstOn (s : CacheState) (id : String) (now : Int) :
      Reachable cfg s → Reachable cfg (activate_burst_mode s id now)
  | burstCheck (s : CacheState) (now : Int) :
      Reachable cfg s → Reachable cfg (check_burst_mode cfg s now)

/-- A demonstration configuration used by the concrete witnesses. -/
def cfgDemo : Config :=
  { CACHE_TTL_MIN := 30
    CACHE_TTL_NORMAL := 60
    CACHE_TTL_MAX := 300
    BURST_MODE_DURATION := 60 }

/-- C1: is_cache_valid is true exactly when a snapshot and its timestamp are
present, the burst flag is off, and the age is strictly below the current
TTL; and it is false whenever the burst flag is set. -/
theorem c1_cache_validity (s : CacheState) (now : Int) :
    (is_cache_valid s now = true ↔
      ∃ c ts, s.cache = some c ∧ s.cache_timestamp = some ts ∧
        s.burst_mode_active = false ∧ now - ts < s.cache_ttl) ∧
    (s.burst_mode_active = true → is_cache_valid s now = false) := by
  constructor
  · unfold is_cache_valid
    rcases hc : s.cache with _ | c <;> rcases ht : s.cache_timestamp with _ | ts
    · simp
    · simp
    · simp
    · rcases hb : s.burst_mode_active <;> simp [hb]
  · intro hb
    unfold is_cache_valid
    rcases s.cache with _ | c <;> rcases s.cache_timestamp with _ | ts <;>
      simp [hb]

/-- C1 witness: a concrete state with burst mode on is reported invalid. -/
theorem c1_cache_validity_witness :
    is_cache_valid
      { initState cfgDemo with
          cache := some []
          cache_timestamp := some 0
          burst_mode_active := true } 1 = false :=
  (c1_cache_validity _ 1).2 rfl

/-- C2: the three branches of adjust_ttl, and the TTL trace of the input
sequence [6, 1, 1, 1] from the initial state: MIN, MIN, MIN, MAX. -/
theorem c2_adjust_ttl_rules (cfg : Config) (s : CacheState) (n : Nat) :
    (n ≥ 5 → adjust_ttl cfg s n =
      { s with cache_ttl := cfg.CACHE_TTL_MIN, consecutive_quiet_cycles := 0 }) ∧
    (2 ≤ n → n < 5 → adjust_ttl cfg s n =
      { s with cache_ttl := cfg.CACHE_TTL_NORMAL, consecutive_quiet_cycles := 0 }) ∧
    (n < 2 →
      (adjust_ttl cfg s n).consecutive_quiet_cycles =
        s.consecutive_quiet_cycles + 1 ∧
      (s.consecutive_quiet_cycles + 1 ≥ 3 →
        (adjust_ttl cfg s n).cache_ttl = cfg.CACHE_TTL_MAX) ∧
      (s.consecutive_quiet_cycles + 1 < 3 →
        (adjust_ttl cfg s n).cache_ttl = s.cache_ttl)) ∧
    ttlTrace cfg (initState cfg) [6, 1, 1, 1] =
      [cfg.CACHE_TTL_MIN, cfg.CACHE_TTL_MIN, cfg.CACHE_TTL_MIN,
        cfg.CACHE_TTL_MAX] := by
  refine ⟨?_, ?_, ?_, ?_⟩
  · intro h5
    unfold adjust_ttl
    simp [h5]
  · intro h2 h5
    unfold adjust_ttl
    rw [if_neg (by omega), if_pos (by omega)]
  · intro h2
    unfold adjust_ttl
    rw [if_neg (by omega), if_neg (by omega)]
    refine ⟨?_, ?_, ?_⟩
    · by_cases hq : s.consecutive_quiet_cycles + 1 ≥ 3 <;> simp [hq]
    · intro hq
      simp [hq]
    · intro hq
      rw [if_neg (by omega)]
  · rfl

/-- C2 witness: at the demonstration configuration, a change count of six
from the initial state forces the MIN level and a zero quiet counter. -/
theorem c2_adjust_ttl_rules_witness :
    adjust_ttl cfgDemo (initState cfgDemo) 6 =
      { initState cfgDemo with
          cache_ttl := cfgDemo.CACHE_TTL_MIN
          consecutive_quiet_cycles := 0 } :=
  (c2_adjust_ttl_rules cfgDemo (initState cfgDemo) 6).1 (by decide)

/-- Helper: the three TTL levels, as a predicate on a state. -/
def ttlAtLevel (cfg : Config) (s : CacheState) : Prop :=
  s.cache_ttl = cfg.CACHE_TTL_MIN ∨ s.cache_ttl = cfg.CACHE_TTL_NORMAL ∨
    s.cache_ttl = cfg.CACHE_TTL_MAX

/-- C9: the TTL starts at the NORMAL level, and every reachable state holds
one of the three configured levels: no operation of the manager ever assigns
any other value. -/
theorem c9_ttl_levels (cfg : Config) (s : CacheState) (h : Reachable cfg s) :
    (initState cfg).cache_ttl = cfg.CACHE_TTL_NORMAL ∧ ttlAtLevel cfg s := by
  refine ⟨rfl, ?_⟩
  induction h with
  | init => exact Or.inr (Or.inl rfl)
  | update s d ok now _ ih =>
    unfold update_cache
    split
    · exact ih
    · split
      · exact ih
      · split
        · exact ih
        · exact ih
  | adjust s n _ ih =>
    unfold ttlAtLevel at ih ⊢
    unfold adjust_ttl
    by_cases h5 : n ≥ 5
    · simp [h5]
    · by_cases h2 : n ≥ 2
      · simp [h5, h2]
      · by_cases hq : s.consecutive_quiet_cycles + 1 ≥ 3
        · simp [h5, h2, hq]
        · simpa [h5, h2, hq] using ih
  | burstOn s id now _ ih =>
    unfold activate_burst_mode
    split <;> exact ih
  | burstCheck s now _ ih =>
    unfold check_burst_mode
    split
    · exact ih
    · split
      · exact ih
      · split
        · exact ih
        · exact ih

/-- C9 witness: the initial state at the demonstration configuration is
reachable and holds one of the three levels. -/
theorem c9_ttl_levels_witness :
    (initState cfgDemo).cache_ttl = cfgDemo.CACHE_TTL_NORMAL ∧
      ttlAtLevel cfgDemo (initState cfgDemo) :=
  c9_ttl_levels cfgDemo (initState cfgDemo) Reachable.init

/-- A demonstration record used by the concrete witnesses. -/
def recDemo : AccountRecord :=
  { idAccount := "1", Sender := "a@b.com", Status := "AVAILABLE" }

/-- Helper: a failed update with no recorded successful snapshot changes
nothing. -/
theorem update_cache_fail_none (s : CacheState) (d : List AccountRecord)
    (now : Int) (h : s.last_successful_cache = none) :
    update_cache s d false now = s := by
  simp [update_cache, h]

/-- Helper: the shape of a failed update when a successful snapshot is
recorded. -/
theorem update_cache_fail_some (s : CacheState) (d : List AccountRecord)
    (now : Int) (l : List AccountRecord)
    (h : s.last_successful_cache = some l) :
    update_cache s d false now =
      if l.isEmpty then s
      else { s with cache := some l
                    cache_timestamp := s.last_successful_timestamp } := by
  simp [update_cache, h]

/-- Helper: the shape of a successful update. -/
theorem update_cache_success (s : CacheState) (d : List AccountRecord)
    (now : Int) :
    update_cache s d true now =
      { s with cache := some d
               cache_timestamp := some now
               last_successful_cache := some d
               last_successful_timestamp := some now } := by
  simp [update_cache]

/-- Invariant of the reachable states: with no recorded successful snapshot
the store is empty, and with one the live slot equals it and the live
timestamp equals the last successful timestamp. -/
theorem cacheSlotsInv (cfg : Config) (s : CacheState) (h : Reachable cfg s) :
    (s.last_successful_cache = none →
      s.cache = none ∧ s.cache_timestamp = none ∧
        s.last_successful_timestamp = none) ∧
    ∀ l, s.last_successful_cache = some l →
      s.cache = some l ∧ s.cache_timestamp = s.last_successful_timestamp ∧
        s.last_successful_timestamp ≠ none := by
  induction h with
  | init => simp [initState]
  | update s d ok now _ ih =>
    cases ok with
    | false =>
      rcases hl : s.last_successful_cache with _ | l
      · rw [update_cache_fail_none s d now hl]
        exact ih
      · rw [update_cache_fail_some s d now l hl]
        by_cases he : l.isEmpty
        · rw [if_pos he]
          exact ih
        · rw [if_neg he]
          obtain ⟨hc, hts, hne⟩ := ih.2 l hl
          constructor
          · intro h0
            simp [hl] at h0
          · intro l2 hl2
            simp only [hl] at hl2
            simp at hl2
            subst hl2
            exact ⟨rfl, rfl, hne⟩
    | true =>
      rw [update_cache_success]
      constructor
      · intro h0
        simp at h0
      · intro l hl2
        simp at hl2
        subst hl2
        simp
  | adjust s n _ ih =>
    by_cases h5 : n ≥ 5
    · simpa [adjust_ttl, h5] using ih
    · by_cases h2 : n ≥ 2
      · simpa [adjust_ttl, h5, h2] using ih
      · by_cases hq : s.consecutive_quiet_cycles + 1 ≥ 3
        · simpa [adjust_ttl, h5, h2, hq] using ih
        · simpa [adjust_ttl, h5, h2, hq] using ih
  | burstOn s id now _ ih =>
    by_cases hb : s.burst_mode_active
    · simpa [activate_burst_mode, hb] using ih
    · simpa [activate_burst_mode, hb] using ih
  | burstCheck s now _ ih =>
    by_cases hb : s.burst_mode_active
    · rcases hst : s.burst_mode_started with _ | t
      · simpa [check_burst_mode, hb, hst] using ih
      · by_cases he : now - t ≥ cfg.BURST_MODE_DURATION
        · simpa [check_burst_mode, hb, hst, he] using ih
        · simpa [check_burst_mode, hb, hst, he] using ih
    · simpa [check_burst_mode, hb] using ih

/-- C3: on a reachable state, a failed update leaves the store empty when no
successful snapshot was ever recorded, and otherwise leaves the live
snapshot equal to the last successful one; a successful update records its
data in both slots, and a success followed by a failure keeps the live
snapshot at the successful data. -/
theorem c3_fallback (cfg : Config) (s : CacheState) (h : Reachable cfg s)
    (d : List AccountRecord) (now : Int) :
    (s.last_successful_cache = none →
      (update_cache s d false now).cache = none) ∧
    (∀ l, s.last_successful_cache = some l →
      (update_cache s d false now).cache = some l) ∧
    ((update_cache s d true now).cache = some d ∧
      (update_cache s d true now).last_successful_cache = some d) ∧
    (∀ X : List AccountRecord, ∀ n1 n2 : Int,
      (update_cache (update_cache s X true n1) [] false n2).cache = some X) := by
  obtain ⟨inv0, inv1⟩ := cacheSlotsInv cfg s h
  refine ⟨?_, ?_, ?_, ?_⟩
  · intro hn
    rw [update_cache_fail_none s d now hn]
    exact (inv0 hn).1
  · intro l hl
    rw [update_cache_fail_some s d now l hl]
    by_cases he : l.isEmpty
    · rw [if_pos he]
      exact (inv1 l hl).1
    · rw [if_neg he]
  · rw [update_cache_success]
    exact ⟨rfl, rfl⟩
  · intro X n1 n2
    rw [update_cache_success, update_cache_fail_some _ [] n2 X rfl]
    by_cases hX : X.isEmpty
    · rw [if_pos hX]
    · rw [if_neg hX]

/-- C3 witness: a failed update on the fresh store leaves it empty. -/
theorem c3_fallback_witness :
    (update_cache (initState cfgDemo) [] false 5).cache = none :=
  (c3_fallback cfgDemo (initState cfgDemo) Reachable.init [] 5).1 rfl

/-- Helper: a true validity verdict pins the age below the TTL. -/
theorem is_cache_valid_lt (s : CacheState) (now : Int)
    (c : List AccountRecord) (ts : Int)
    (hc : s.cache = some c) (ht : s.cache_timestamp = some ts)
    (h : is_cache_valid s now = true) : now - ts < s.cache_ttl := by
  unfold is_cache_valid at h
  rw [hc, ht] at h
  by_cases hb : s.burst_mode_active
  · simp [hb] at h
  · simp [hb] at h
    exact h

/-- C10: on a reachable state holding a successful snapshot, a failed update
restores the last successful timestamp (not the current time) and keeps the
TTL, so validity after the fallback still means the restored capture time is
within the TTL. -/
theorem c10_fallback_timestamp (cfg : Config) (s : CacheState)
    (h : Reachable cfg s) (l : List AccountRecord)
    (hl : s.last_successful_cache = some l) (d : List AccountRecord)
    (now : Int) :
    (update_cache s d false now).cache_timestamp =
        s.last_successful_timestamp ∧
    (update_cache s d false now).cache_ttl = s.cache_ttl ∧
    ∃ ts, s.last_successful_timestamp = some ts ∧
      ∀ t, is_cache_valid (update_cache s d false now) t = true →
        t - ts < s.cache_ttl := by
  obtain ⟨_, inv1⟩ := cacheSlotsInv cfg s h
  obtain ⟨hc, hts, hne⟩ := inv1 l hl
  rcases hlt : s.last_successful_timestamp with _ | ts
  · exact absurd hlt hne
  · rw [update_cache_fail_some s d now l hl]
    by_cases he : l.isEmpty
    · rw [if_pos he]
      refine ⟨by rw [hts, hlt], rfl, ts, rfl, ?_⟩
      intro t hv
      exact is_cache_valid_lt s t l ts hc (by rw [hts, hlt]) hv
    · rw [if_neg he]
      refine ⟨by simpa using hlt, rfl, ts, rfl, ?_⟩
      intro t hv
      have := is_cache_valid_lt
        { s with cache := some l, cache_timestamp := s.last_successful_timestamp }
        t l ts rfl (by simpa using hlt) hv
      simpa using this

/-- C10 witness: after a concrete success at time 0 and a failure at time
10, the live timestamp equals the recorded successful timestamp. -/
theorem c10_fallback_timestamp_witness :
    (update_cache (update_cache (initState cfgDemo) [recDemo] true 0)
        [] false 10).cache_timestamp =
      (update_cache (initState cfgDemo) [recDemo] true 0).last_successful_timestamp :=
  (c10_fallback_timestamp cfgDemo
    (update_cache (initState cfgDemo) [recDemo] true 0)
    (Reachable.update (initState cfgDemo) [recDemo] true 0 Reachable.init)
    [recDemo] rfl [] 10).1

/-- C4: from an inactive session with no targets, activating for A and then
for B keeps one session whose targets are A and B and whose start time is
the first activation time; the expiry check clears the flag, the start time
and the targets once the elapsed time reaches the burst duration, and
changes nothing before that. -/
theorem c4_burst_lifecycle (cfg : Config) (s : CacheState) (A B : String)
    (t1 t2 now : Int) (hb : s.burst_mode_active = false)
    (ht : s.burst_targets = ∅) :
    ((activate_burst_mode (activate_burst_mode s A t1) B t2).burst_mode_active
        = true) ∧
    ((activate_burst_mode (activate_burst_mode s A t1) B t2).burst_mode_started
        = some t1) ∧
    ((activate_burst_mode (activate_burst_mode s A t1) B t2).burst_targets
        = {A, B}) ∧
    (now - t1 ≥ cfg.BURST_MODE_DURATION →
      (check_burst_mode cfg
          (activate_burst_mode (activate_burst_mode s A t1) B t2)
          now).burst_mode_active = false ∧
      (check_burst_mode cfg
          (activate_burst_mode (activate_burst_mode s A t1) B t2)
          now).burst_mode_started = none ∧
      (check_burst_mode cfg
          (activate_burst_mode (activate_burst_mode s A t1) B t2)
          now).burst_targets = ∅) ∧
    (now - t1 < cfg.BURST_MODE_DURATION →
      check_burst_mode cfg
          (activate_burst_mode (activate_burst_mode s A t1) B t2) now =
        activate_burst_mode (activate_burst_mode s A t1) B t2) := by
  have h1 : activate_burst_mode s A t1 =
      { s with burst_mode_active := true
               burst_mode_started := some t1
               burst_targets := insert A s.burst_targets } := by
    simp [activate_burst_mode, hb]
  have h2 : activate_burst_mode (activate_burst_mode s A t1) B t2 =
      { s with burst_mode_active := true
               burst_mode_started := some t1
               burst_targets := insert B (insert A s.burst_targets) } := by
    rw [h1]
    simp [activate_burst_mode]
  rw [h2, ht]
  refine ⟨rfl, rfl, ?_, ?_, ?_⟩
  · ext x
    simp [or_comm]
  · intro h
    refine ⟨?_, ?_, ?_⟩ <;> simp [check_burst_mode, h]
  · intro h
    have h' : ¬ now - t1 ≥ cfg.BURST_MODE_DURATION := not_le.mpr h
    simp [check_burst_mode, h']

/-- C4 witness: activating for A at time 0 and for B at time 1 keeps the
start time of the first activation. -/
theorem c4_burst_lifecycle_witness :
    (activate_burst_mode (activate_burst_mode (initState cfgDemo) "A" 0)
        "B" 1).burst_mode_started = some 0 :=
  (c4_burst_lifecycle cfgDemo (initState cfgDemo) "A" "B" 0 1 100
    rfl rfl).2.1

/-- Helper: the sender lookup on a present snapshot. -/
theorem get_account_by_email_eq (s : CacheState) (q : String)
    (c : List AccountRecord) (hc : s.cache = some c) :
    get_account_by_email s q =
      if c.isEmpty then none
      else c.find? (fun a => strLower a.Sender == strTrim (strLower q)) := by
  unfold get_account_by_email
  rw [hc]

/-- Helper: the id lookup on a present snapshot. -/
theorem get_account_by_id_eq (s : CacheState) (id : String)
    (c : List AccountRecord) (hc : s.cache = some c) :
    get_account_by_id s id =
      if c.isEmpty then none
      else c.find? (fun a => a.idAccount == id) := by
  unfold get_account_by_id
  rw [hc]

/-- C8: a record returned by the sender lookup has a lowercased Sender equal
to the lowercased and trimmed query, that is, it equals the query up to
letter case and the surrounding whitespace of the query; both lookups return
none, rather than failing, on a missing snapshot or when no matching record
is present. -/
theorem c8_lookups (s : CacheState) (q id : String) :
    (∀ r, get_account_by_email s q = some r →
      strLower r.Sender = strTrim (strLower q)) ∧
    (s.cache = none →
      get_account_by_email s q = none ∧ get_account_by_id s id = none) ∧
    (∀ c, s.cache = some c →
      (∀ r ∈ c, strLower r.Sender ≠ strTrim (strLower q)) →
      get_account_by_email s q = none) ∧
    (∀ c, s.cache = some c → (∀ r ∈ c, r.idAccount ≠ id) →
      get_account_by_id s id = none) := by
  refine ⟨?_, ?_, ?_, ?_⟩
  · intro r hr
    rcases hc : s.cache with _ | c
    · rw [show get_account_by_email s q = none by
        unfold get_account_by_email; rw [hc]] at hr
      exact absurd hr (by simp)
    · rw [get_account_by_email_eq s q c hc] at hr
      by_cases he : c.isEmpty
      · rw [if_pos he] at hr
        exact absurd hr (by simp)
      · rw [if_neg he] at hr
        have := List.find?_some hr
        simpa using this
  · intro hc
    unfold get_account_by_email get_account_by_id
    rw [hc]
    exact ⟨rfl, rfl⟩
  · intro c hc hall
    rw [get_account_by_email_eq s q c hc]
    by_cases he : c.isEmpty
    · rw [if_pos he]
    · rw [if_neg he]
      simp only [List.find?_eq_none]
      intro r hr
      simpa using hall r hr
  · intro c hc hall
    rw [get_account_by_id_eq s id c hc]
    by_cases he : c.isEmpty
    · rw [if_pos he]
    · rw [if_neg he]
      simp only [List.find?_eq_none]
      intro r hr
      simpa using hall r hr

/-- C8 witness: on a concrete snapshot the sender lookup finds the record up
to case and surrounding whitespace of the query, and both lookups on the
empty fresh store return none. -/
theorem c8_lookups_witness :
    strLower recDemo.Sender = strTrim (strLower "  A@B.COM ") ∧
    get_account_by_email (initState cfgDemo) "x" = none ∧
    get_account_by_id (initState cfgDemo) "x" = none :=
  ⟨(c8_lookups { initState cfgDemo with cache := some [recDemo] }
      "  A@B.COM " "x").1 recDemo (by decide),
   (c8_lookups (initState cfgDemo) "x" "x").2.1 rfl⟩

/-- The actionable statuses written inline in wait_for_status_change
(core.py): the entity is added to continuous monitoring exactly when the
observed status is one of these. -/
def actionableStatuses : List String :=
  ["AVAILABLE", "ACTIVE", "LOGGED", "LOGGED IN"]

/-- The initial discovery loop of wait_for_status_change (core.py), written
as range(1, 15) and hence running attempts 1 through 14. The lookup
argument scripts the per-attempt result of search_sender_by_email. The
first attempt whose lookup yields a record with a nonempty idAccount
returns that id, for which burst mode is then activated; a record with an
empty id does not stop the loop. A none result means the loop was
exhausted: the function returns a discovery failure and burst mode is never
activated. -/
def discoverAux (lookup : Nat → Option AccountRecord) :
    Nat → Nat → Option String
  | 0, _ => none
  | fuel + 1, attempt =>
    match lookup attempt with
    | some r =>
      if r.idAccount ≠ "" then some r.idAccount
      else discoverAux lookup fuel (attempt + 1)
    | none => discoverAux lookup fuel (attempt + 1)

/-- The discovery loop as the code runs it: 14 attempts, starting at 1. -/
def discover (lookup : Nat → Option AccountRecord) : Option String :=
  discoverAux lookup 14 1

/-- An oracle that produces a record with a nonempty id only on the
fifteenth attempt. -/
def lateOracle : Nat → Option AccountRecord := fun i =>
  if i = 15 then some { idAccount := "42", Sender := "x@y.z", Status := "NEW" }
  else none

/-- C5: the claim and the comments and progress display of the code promise
15 lookup attempts, but range(1, 15) performs only 14. Against an oracle
whose record appears exactly on attempt 15, the code as written returns a
discovery failure (and never activates burst mode), while a loop of 15
attempts would find the id. -/
theorem c5_discovery_budget :
    discover lateOracle = none ∧ discoverAux lateOracle 15 1 = some "42" := by
  decide

/-- The outcome of the tracking protocol of wait_for_status_change. The
registered flag records whether add_monitored_account was invoked. -/
structure TrackResult where
  success : Bool
  record : Option AccountRecord
  registered : Bool
deriving DecidableEq, Repr

/-- The epilogue of wait_for_status_change after the 40-attempt loop
(core.py lines after the loop): when the variable holding the last lookup
result is a record, the entity is registered exactly when its uppercased
status is actionable and success is returned with the record; otherwise the
function returns failure. -/
def trackEpilogue (lastInfo : Option AccountRecord) : TrackResult :=
  match lastInfo with
  | none => { success := false, record := none, registered := false }
  | some info =>
    { success := true
      record := some info
      registered := decide (strUpper info.Status ∈ actionableStatuses) }

/-- The 40-attempt monitoring loop of wait_for_status_change. The lookup
argument scripts the per-attempt result of search_sender_by_id; the set of
final statuses is a parameter because FINAL_STATUSES lives in the config
module outside the verified sources. A none lookup overwrites the held
record and continues; a final status returns success immediately, with
registration exactly on an actionable status; exhaustion falls through to
the epilogue applied to the last lookup result. -/
def trackAux (lookup : Nat → Option AccountRecord)
    (finalStatuses : List String) :
    Nat → Nat → Option AccountRecord → TrackResult
  | 0, _, lastInfo => trackEpilogue lastInfo
  | fuel + 1, attempt, _ =>
    match lookup attempt with
    | none => trackAux lookup finalStatuses fuel (attempt + 1) none
    | some info =>
      if strUpper info.Status ∈ finalStatuses then
        { success := true
          record := some info
          registered := decide (strUpper info.Status ∈ actionableStatuses) }
      else trackAux lookup finalStatuses fuel (attempt + 1) (some info)

/-- The tracking protocol: 40 attempts, starting at 1, no record held. -/
def track (lookup : Nat → Option AccountRecord)
    (finalStatuses : List String) : TrackResult :=
  trackAux lookup finalStatuses 40 1 none

/-- A record permanently in the transitional status LOGGING. -/
def recLogging : AccountRecord :=
  { idAccount := "7", Sender := "c@d.e", Status := "LOGGING" }

/-- A demonstration set of final statuses, not containing LOGGING. -/
def finalDemo : List String :=
  ["AVAILABLE", "ACTIVE", "LOGGED", "LOGGED IN", "WRONG DETAILS"]

/-- C6 counterexample: lookups that always observe the non-final,
non-actionable status LOGGING exhaust the 40-attempt budget with a last
observed record whose status is outside the actionable set; the claim then
demands failure, but the code returns success with the record (and without
registering it). -/
theorem c6_counterexample :
    (track (fun _ => some recLogging) finalDemo).success = true ∧
    (track (fun _ => some recLogging) finalDemo).record = some recLogging ∧
    (track (fun _ => some recLogging) finalDemo).registered = false ∧
    strUpper recLogging.Status ∉ actionableStatuses := by
  decide

/-- Helper: when no attempt in the remaining window observes a final
status, the loop falls through to the epilogue on the last lookup. -/
theorem trackAux_exhaust (lookup : Nat → Option AccountRecord)
    (finalStatuses : List String) :
    ∀ (fuel attempt : Nat) (lastInfo : Option AccountRecord),
      attempt + fuel = 40 →
      (∀ i r, attempt ≤ i → i ≤ 40 → lookup i = some r →
        strUpper r.Status ∉ finalStatuses) →
      trackAux lookup finalStatuses (fuel + 1) attempt lastInfo =
        trackEpilogue (lookup 40) := by
  intro fuel
  induction fuel with
  | zero =>
    intro attempt lastInfo hsum hno
    have ha : attempt = 40 := by omega
    subst ha
    unfold trackAux
    rcases hl : lookup 40 with _ | r
    · simp only [hl]
      rfl
    · have hnf := hno 40 r (le_refl 40) (le_refl 40) hl
      simp only [hl]
      rw [if_neg hnf]
      rfl
  | succ n ih =>
    intro attempt lastInfo hsum hno
    unfold trackAux
    rcases hl : lookup attempt with _ | r
    · simp only [hl]
      exact ih (attempt + 1) none (by omega)
        (fun i r2 hi h40 hr => hno i r2 (by omega) h40 hr)
    · have hnf := hno attempt r (le_refl attempt) (by omega) hl
      simp only [hl]
      rw [if_neg hnf]
      exact ih (attempt + 1) (some r) (by omega)
        (fun i r2 hi h40 hr => hno i r2 (by omega) h40 hr)

/-- C6 amended: when the 40-attempt budget is exhausted without a final
status, the result is the epilogue of the last lookup: no record observed
on the last attempt means failure; a record means success with that record,
registered exactly when its status is in the actionable set. No error is
raised: exhaustion always returns a value. -/
theorem c6_amended_budget (lookup : Nat → Option AccountRecord)
    (finalStatuses : List String)
    (hno : ∀ i r, 1 ≤ i → i ≤ 40 → lookup i = some r →
      strUpper r.Status ∉ finalStatuses) :
    track lookup finalStatuses = trackEpilogue (lookup 40) ∧
    (lookup 40 = none →
      track lookup finalStatuses =
        { success := false, record := none, registered := false }) ∧
    (∀ r, lookup 40 = some r →
      (track lookup finalStatuses).success = true ∧
      (track lookup finalStatuses).record = some r ∧
      ((track lookup finalStatuses).registered = true ↔
        strUpper r.Status ∈ actionableStatuses)) := by
  have key : track lookup finalStatuses = trackEpilogue (lookup 40) := by
    unfold track
    exact trackAux_exhaust lookup finalStatuses 39 1 none (by omega)
      (fun i r h1 h40 hr => hno i r h1 h40 hr)
  refine ⟨key, ?_, ?_⟩
  · intro h0
    rw [key, h0]
    rfl
  · intro r hr
    rw [key, hr]
    refine ⟨rfl, rfl, ?_⟩
    simp [trackEpilogue]

/-- C6 amended witness: lookups that never observe anything exhaust the
budget and report failure. -/
theorem c6_amended_budget_witness :
    track (fun _ => none) finalDemo =
      { success := false, record := none, registered := false } :=
  (c6_amended_budget (fun _ => none) finalDemo
    (fun _ _ _ _ hr => Option.noConfusion hr)).2.1 rfl

/-- One persisted monitored entry of the Account Directory, as written by
add_monitored_account (core.py). -/
structure MonitoredEntry where
  email : String
  account_id : String
  last_known_status : String
  chat_id : Int
  added_at : Int
  last_check : Int
deriving DecidableEq, Repr

/-- The change event emitted to the notifier by continuous_monitor. -/
structure StatusChangeEvent where
  email : String
  account_id : String
  old_status : String
  new_status : String
deriving DecidableEq, Repr

/-- The id-indexed dictionary built once per cycle by continuous_monitor:
records with a falsy (empty) idAccount are excluded as keys, later records
overwrite earlier ones, so the lookup of an id returns the last matching
record of the batch. -/
def accountsById (batch : List AccountRecord) (id : String) :
    Option AccountRecord :=
  if id = "" then none
  else batch.reverse.find? (fun r => r.idAccount == id)

/-- Processing of one monitored entry inside a continuous_monitor cycle:
an entry without an id, or whose id is absent from the batch, is skipped
and left unchanged; otherwise the current and last statuses are compared
after uppercasing, and on a mismatch the change counter contribution is
one, the uppercased new status is persisted and exactly one
StatusChangeEvent is emitted, while on a match the status (uppercased) and
the lastCheck time are still refreshed with no event and no count. -/
def processEntry (batch : List AccountRecord) (now : Int)
    (entry : MonitoredEntry) :
    MonitoredEntry × Nat × List StatusChangeEvent :=
  if entry.account_id = "" then (entry, 0, [])
  else
    match accountsById batch entry.account_id with
    | none => (entry, 0, [])
    | some r =>
      let current := strUpper r.Status
      let last := strUpper entry.last_known_status
      if current ≠ last then
        ({ entry with last_known_status := current, last_check := now }, 1,
          [{ email := entry.email
             account_id := entry.account_id
             old_status := last
             new_status := current }])
      else
        ({ entry with last_known_status := current, last_check := now }, 0, [])

/-- One full continuous_monitor cycle over the monitored entries: each entry
is processed in order, the change counts are summed and the events
concatenated; no entry is ever deleted. -/
def monitorCycle (batch : List AccountRecord) (now : Int) :
    List MonitoredEntry → List MonitoredEntry × Nat × List StatusChangeEvent
  | [] => ([], 0, [])
  | e :: rest =>
    ((processEntry batch now e).1 :: (monitorCycle batch now rest).1,
      (processEntry batch now e).2.1 + (monitorCycle batch now rest).2.1,
      (processEntry batch now e).2.2 ++ (monitorCycle batch now rest).2.2)

/-- C7: within a re-scan cycle, an entry whose id is absent from the batch
is left unchanged with no event and no count; a present entry with an equal
status under case-insensitive comparison yields no event and no count but a
refreshed lastCheck; a mismatch yields count one, the persisted new status
and exactly one event; and a cycle never deletes entries. -/
theorem c7_rescan_cycle (batch : List AccountRecord) (now : Int)
    (entry : MonitoredEntry) :
    (accountsById batch entry.account_id = none →
      processEntry batch now entry = (entry, 0, [])) ∧
    (∀ r, accountsById batch entry.account_id = some r →
      strUpper r.Status = strUpper entry.last_known_status →
      (processEntry batch now entry).2.1 = 0 ∧
      (processEntry batch now entry).2.2 = [] ∧
      (processEntry batch now entry).1.last_check = now) ∧
    (∀ r, accountsById batch entry.account_id = some r →
      strUpper r.Status ≠ strUpper entry.last_known_status →
      (processEntry batch now entry).2.1 = 1 ∧
      (processEntry batch now entry).1.last_known_status =
        strUpper r.Status ∧
      (processEntry batch now entry).2.2 =
        [{ email := entry.email
           account_id := entry.account_id
           old_status := strUpper entry.last_known_status
           new_status := strUpper r.Status }]) ∧
    (∀ entries : List MonitoredEntry,
      (monitorCycle batch now entries).1.length = entries.length) := by
  refine ⟨?_, ?_, ?_, ?_⟩
  · intro h0
    unfold processEntry
    by_cases hid : entry.account_id = ""
    · rw [if_pos hid]
    · rw [if_neg hid]
      simp only [h0]
  · intro r hr heq
    have hid : ¬ entry.account_id = "" := by
      intro h0
      unfold accountsById at hr
      rw [if_pos h0] at hr
      exact Option.noConfusion hr
    unfold processEntry
    rw [if_neg hid]
    simp only [hr]
    rw [if_neg (fun hne => hne heq)]
    exact ⟨rfl, rfl, rfl⟩
  · intro r hr hne
    have hid : ¬ entry.account_id = "" := by
      intro h0
      unfold accountsById at hr
      rw [if_pos h0] at hr
      exact Option.noConfusion hr
    unfold processEntry
    rw [if_neg hid]
    simp only [hr]
    rw [if_pos hne]
    exact ⟨rfl, rfl, rfl⟩
  · intro entries
    induction entries with
    | nil => rfl
    | cons e rest ih =>
      simp only [monitorCycle, List.length_cons, ih]

/-- C7 witness: a concrete present entry whose status already matches up to
case gets no event and no count but a refreshed lastCheck. -/
theorem c7_rescan_cycle_witness :
    (processEntry [recDemo] 9
      { email := "a@b.com", account_id := "1",
        last_known_status := "available", chat_id := 5, added_at := 0,
        last_check := 0 }).2.1 = 0 ∧
    (processEntry [recDemo] 9
      { email := "a@b.com", account_id := "1",
        last_known_status := "available", chat_id := 5, added_at := 0,
        last_check := 0 }).2.2 = [] ∧
    (processEntry [recDemo] 9
      { email := "a@b.com", account_id := "1",
        last_known_status := "available", chat_id := 5, added_at := 0,
        last_check := 0 }).1.last_check = 9 :=
  (c7_rescan_cycle [recDemo] 9
      { email := "a@b.com", account_id := "1",
        last_known_status := "available", chat_id := 5, added_at := 0,
        last_check := 0 }).2.1 recDemo (by decide) (by decide)
